import Mathlib

/-!
Verification development for the smart_light_group Home Assistant custom
component (`custom_components/smart_light_group/light.py`).

The development shallowly embeds the decision procedure of
`SmartLightGroup.async_turn_on`:

* member classification by the supported-features bitmask (source lines
  180-202),
* resolution of the four light attributes (brightness, color temperature,
  hs color, white value) against supplied kwargs, previous group state and
  configured defaults (lines 229-268),
* the cross derivations (temperature to hs conversion, white-value
  adaptation) and the projection basis selection (lines 283-324),
* the per-bucket command construction (lines 351-448).

Python floats are modelled as exact rationals; integer-valued quantities
(brightness, color temperature, white value, thresholds) are modelled as
integers.  Entity identifiers are opaque and modelled as naturals.  The
Home Assistant color-utility conversion from a color temperature to an hs
pair (`color_util.color_temperature_to_hs`), which involves `math.log`, is
modelled twice: abstractly (an injected function in the configuration, its
values never matter to the resolution-level claims) and exactly over the
real numbers for the claims about the conversion itself.
-/

namespace SmartLightGroup

/-! ## Feature bitmask constants (homeassistant.components.light) -/

def SUPPORT_BRIGHTNESS : Nat := 1

def SUPPORT_COLOR_TEMP : Nat := 2

def SUPPORT_COLOR : Nat := 16

def SUPPORT_WHITE_VALUE : Nat := 128

/-! ## Data model -/

/-- A member's live state snapshot, as far as `async_turn_on` reads it:
only `state.attributes.get(ATTR_SUPPORTED_FEATURES)` is consulted, and the
attribute may be missing (`none`, Python `None`). -/
structure LightState where
  supported_features : Option Nat
deriving DecidableEq

/-- The group's own stored fields read (and, per claim C9, never written) by
`async_turn_on`: the `self._*` attributes of `SmartLightGroup`. -/
structure GroupVars where
  is_on : Bool
  available : Bool
  brightness : Option Int
  hs_color : Option (Rat × Rat)
  color_temp : Option Int
  min_mireds : Option Int
  max_mireds : Option Int
  white_value : Option Int
  effect_list : Option (List Nat)
  effect : Option Nat
  supported_features : Nat
deriving DecidableEq

/-- Per-group configuration, from the `__init__` fields that are read from
`conf`.  The field `tempToHS` injects the external
`color_util` mired-to-hs conversion used on the resolution path
(`self._hs_color_for_temperature`); its exact real-valued model appears
further below for the claims about the conversion itself. -/
structure Config where
  default_brightness : Int
  default_color_temp : Int
  default_h : Rat
  default_s : Rat
  default_white_value : Int
  auto_convert_temp_to_hs : Bool
  auto_adapt_white_value : Bool
  threshold_lower_temperature_white_lights : Int
  threshold_upper_temperature_white_lights : Int
  threshold_upper_saturation_white_lights : Rat
  threshold_lower_brightness_non_dimmable_lights : Int
  tempToHS : Int → Rat × Rat

/-- `__init__` hardcodes `self._empty_turn_on_is_reset_to_default = True`
(it is not read from the configuration). -/
def empty_turn_on_is_reset_to_default : Bool := true

/-- `__init__` hardcodes `self._color_temp_before_hs_color = True`. -/
def color_temp_before_hs_color : Bool := true

/-- The optional light attributes of a `turn_on` call (`kwargs`). -/
structure TurnOnArgs where
  brightness : Option Int
  colorTemp : Option Int
  hsColor : Option (Rat × Rat)
  whiteValue : Option Int
deriving DecidableEq

/-- The `data` dictionary of one outbound service call; every attribute key
is optional (absent keys are `none`). -/
structure CommandData where
  brightness : Option Int := none
  colorTemp : Option Int := none
  hsColor : Option (Rat × Rat) := none
  whiteValue : Option Int := none
deriving DecidableEq

/-- One outbound service call: `turn_on` when `isTurnOn`, else `turn_off`,
addressed to a list of member entities. -/
structure Command where
  isTurnOn : Bool
  entityIds : List Nat
  data : CommandData
deriving DecidableEq

/-! ## Capability classification (source lines 180-202) -/

/-- The six capability buckets, in the source's naming. -/
structure Buckets where
  temperature_and_color : List Nat
  color_and_white : List Nat
  color : List Nat
  temperature : List Nat
  dimmable : List Nat
  non_dimmable : List Nat
deriving DecidableEq

def emptyBuckets : Buckets := ⟨[], [], [], [], [], []⟩

/-- Names for the six buckets. -/
inductive BucketKind where
  | temperatureAndColor
  | colorAndWhite
  | colorOnly
  | temperatureOnly
  | dimmableOnly
  | onOffOnly
deriving DecidableEq

def bucketList : BucketKind → Buckets → List Nat
  | .temperatureAndColor, b => b.temperature_and_color
  | .colorAndWhite, b => b.color_and_white
  | .colorOnly, b => b.color
  | .temperatureOnly, b => b.temperature
  | .dimmableOnly, b => b.dimmable
  | .onOffOnly, b => b.non_dimmable

/-- The if/elif priority chain of the classification loop, for a member
whose supported-features bitmask is `support`. -/
def classOf (support : Nat) : BucketKind :=
  let sup_bri : Bool := support &&& SUPPORT_BRIGHTNESS != 0
  let sup_col : Bool := support &&& SUPPORT_COLOR != 0
  let sup_white_value : Bool := support &&& SUPPORT_WHITE_VALUE != 0
  let sup_temp : Bool := support &&& SUPPORT_COLOR_TEMP != 0
  if sup_bri && sup_col && sup_temp then .temperatureAndColor
  else if sup_bri && sup_col && sup_white_value then .colorAndWhite
  else if sup_bri && sup_col then .colorOnly
  else if sup_bri && sup_temp then .temperatureOnly
  else if sup_bri then .dimmableOnly
  else .onOffOnly

/-- Append a classified member in front of its bucket. -/
def addToBucket (entity_id : Nat) (support : Nat) (b : Buckets) : Buckets :=
  match classOf support with
  | .temperatureAndColor => { b with temperature_and_color := entity_id :: b.temperature_and_color }
  | .colorAndWhite => { b with color_and_white := entity_id :: b.color_and_white }
  | .colorOnly => { b with color := entity_id :: b.color }
  | .temperatureOnly => { b with temperature := entity_id :: b.temperature }
  | .dimmableOnly => { b with dimmable := entity_id :: b.dimmable }
  | .onOffOnly => { b with non_dimmable := entity_id :: b.non_dimmable }

/-- The classification loop.  A member whose `hass.states.get` snapshot is
absent (`None`, falsy) is skipped; a member whose snapshot is present but
carries no integer supported-features attribute makes the Python code raise
a `TypeError` on `support & SUPPORT_BRIGHTNESS` (`None & int`), modelled by
the error branch. -/
def classifyMembers : List Nat → (Nat → Option LightState) → Except Unit Buckets
  | [], _ => .ok emptyBuckets
  | entity_id :: rest, getState =>
    match getState entity_id with
    | none => classifyMembers rest getState
    | some st =>
      match st.supported_features with
      | none => .error ()
      | some support => (classifyMembers rest getState).map (addToBucket entity_id support)

/-- The class a member would land in, when it has a live state with an
integer feature mask. -/
def memberClass (getState : Nat → Option LightState) (entity_id : Nat) : Option BucketKind :=
  match getState entity_id with
  | none => none
  | some st =>
    match st.supported_features with
    | none => none
    | some support => some (classOf support)

/-! ## ColorMath over the rationals (the white-value derivation)

`colorsys.hsv_to_rgb` and `color_util.color_hsv_to_RGB` are exact rational
arithmetic apart from IEEE rounding; they are embedded over `Rat`.
Python `int(x)` truncates toward zero. -/

/-- Python `int(x)` on a (here rational-modelled) float: truncation toward
zero. -/
def pyInt (q : Rat) : Int := if 0 ≤ q then ⌊q⌋ else ⌈q⌉

/-- `colorsys.hsv_to_rgb` (Python standard library), all channels in
`[0, 1]` scale. -/
def hsv_to_rgb (h s v : Rat) : Rat × Rat × Rat :=
  if s = 0 then (v, v, v)
  else
    let i0 : Int := pyInt (h * 6)
    let f : Rat := h * 6 - (i0 : Rat)
    let p := v * (1 - s)
    let q := v * (1 - s * f)
    let t := v * (1 - s * (1 - f))
    let i := i0 % 6
    if i = 0 then (v, t, p)
    else if i = 1 then (q, v, p)
    else if i = 2 then (p, v, t)
    else if i = 3 then (p, q, v)
    else if i = 4 then (t, p, v)
    else (v, p, q)

/-- `color_util.color_hsv_to_RGB`: hue in degrees, saturation and value in
percent, output integer channels in `[0, 255]`. -/
def color_hsv_to_RGB (iH iS iV : Rat) : Int × Int × Int :=
  let fRGB := hsv_to_rgb (iH / 360) (iS / 100) (iV / 100)
  (pyInt (fRGB.1 * 255), pyInt (fRGB.2.1 * 255), pyInt (fRGB.2.2 * 255))

/-- `SmartLightGroup._calculate_white_value` (source lines 162-167). -/
def calculate_white_value (cfg : Config) (hs_color : Rat × Rat) (brightness : Int) : Int :=
  if hs_color.2 < cfg.threshold_upper_saturation_white_lights then
    let rgb := color_hsv_to_RGB hs_color.1 hs_color.2 ((brightness : Rat) / 255 * 100)
    pyInt ((min rgb.1 (min rgb.2.1 rgb.2.2) : Rat) * ((brightness : Rat) / 255))
  else 0

/-- The white-value derivation as the claim words it: the final product is
ROUNDED to the nearest integer instead of truncated.  Declared only to be
compared with `calculate_white_value`. -/
def calculate_white_value_claimed (cfg : Config) (hs_color : Rat × Rat) (brightness : Int) : Int :=
  if hs_color.2 < cfg.threshold_upper_saturation_white_lights then
    let rgb := color_hsv_to_RGB hs_color.1 hs_color.2 ((brightness : Rat) / 255 * 100)
    round ((min rgb.1 (min rgb.2.1 rgb.2.2) : Rat) * ((brightness : Rat) / 255))
  else 0

/-! ## Attribute resolution (source lines 229-324)

Each local variable of `async_turn_on` on the resolution path becomes a
definition over the configuration `cfg`, the group's stored fields `g` and
the call's kwargs `kw`. -/

def was_off (g : GroupVars) : Bool := !g.is_on

def supplied_brightness (kw : TurnOnArgs) : Bool := kw.brightness.isSome

def supplied_color_temp (kw : TurnOnArgs) : Bool := kw.colorTemp.isSome

def supplied_hs_color (kw : TurnOnArgs) : Bool := kw.hsColor.isSome

def supplied_white_value (kw : TurnOnArgs) : Bool := kw.whiteValue.isSome

def no_light_attr_supplied (kw : TurnOnArgs) : Bool :=
  !supplied_brightness kw && !supplied_color_temp kw && !supplied_hs_color kw && !supplied_white_value kw

/-- Source line 235:
`(self._empty_turn_on_is_reset_to_default or was_off) and no_light_attr_supplied`. -/
def is_reset_to_default (g : GroupVars) (kw : TurnOnArgs) : Bool :=
  (empty_turn_on_is_reset_to_default || was_off g) && no_light_attr_supplied kw

def allow_using_old_values (g : GroupVars) (kw : TurnOnArgs) : Bool :=
  !is_reset_to_default g kw

/-- Source lines 238-244. -/
def new_brightness (cfg : Config) (g : GroupVars) (kw : TurnOnArgs) : Int :=
  match kw.brightness with
  | some v => v
  | none =>
    match g.brightness with
    | some old => if allow_using_old_values g kw then old else cfg.default_brightness
    | none => cfg.default_brightness

def using_old_brightness (g : GroupVars) (kw : TurnOnArgs) : Bool :=
  !supplied_brightness kw && g.brightness.isSome && allow_using_old_values g kw

/-- Source lines 246-252. -/
def new_color_temp (cfg : Config) (g : GroupVars) (kw : TurnOnArgs) : Int :=
  match kw.colorTemp with
  | some v => v
  | none =>
    match g.color_temp with
    | some old => if allow_using_old_values g kw then old else cfg.default_color_temp
    | none => cfg.default_color_temp

def using_old_color_temp (g : GroupVars) (kw : TurnOnArgs) : Bool :=
  !supplied_color_temp kw && g.color_temp.isSome && allow_using_old_values g kw

/-- Source lines 254-260, before the temperature-to-hs adaption. -/
def new_hs_color_resolved (cfg : Config) (g : GroupVars) (kw : TurnOnArgs) : Rat × Rat :=
  match kw.hsColor with
  | some v => v
  | none =>
    match g.hs_color with
    | some old => if allow_using_old_values g kw then old else (cfg.default_h, cfg.default_s)
    | none => (cfg.default_h, cfg.default_s)

def using_old_hs_color (g : GroupVars) (kw : TurnOnArgs) : Bool :=
  !supplied_hs_color kw && g.hs_color.isSome && allow_using_old_values g kw

/-- Source lines 262-268, before the white-value adaption. -/
def new_white_value_resolved (cfg : Config) (g : GroupVars) (kw : TurnOnArgs) : Int :=
  match kw.whiteValue with
  | some v => v
  | none =>
    match g.white_value with
    | some old => if allow_using_old_values g kw then old else cfg.default_white_value
    | none => cfg.default_white_value

def using_old_white_value (g : GroupVars) (kw : TurnOnArgs) : Bool :=
  !supplied_white_value kw && g.white_value.isSome && allow_using_old_values g kw

def apply_all_attributes (g : GroupVars) (kw : TurnOnArgs) : Bool :=
  was_off g || is_reset_to_default g kw

def apply_brightness (g : GroupVars) (kw : TurnOnArgs) : Bool :=
  supplied_brightness kw || apply_all_attributes g kw

def apply_color_temp (g : GroupVars) (kw : TurnOnArgs) : Bool :=
  supplied_color_temp kw || apply_all_attributes g kw

/-- Source lines 290-291. -/
def color_temp_has_newer_value_than_hs_color (g : GroupVars) (kw : TurnOnArgs) : Bool :=
  !supplied_hs_color kw &&
    (supplied_color_temp kw || (using_old_color_temp g kw && !using_old_hs_color g kw))

/-- Source line 292. -/
def do_convert_temp_to_hs (cfg : Config) (g : GroupVars) (kw : TurnOnArgs) : Bool :=
  cfg.auto_convert_temp_to_hs && !is_reset_to_default g kw &&
    color_temp_has_newer_value_than_hs_color g kw

/-- Source lines 293-294: the hs color after the possible conversion from
the resolved color temperature. -/
def new_hs_color (cfg : Config) (g : GroupVars) (kw : TurnOnArgs) : Rat × Rat :=
  if do_convert_temp_to_hs cfg g kw then cfg.tempToHS (new_color_temp cfg g kw)
  else new_hs_color_resolved cfg g kw

/-- Source line 295: `supplied_hs_color = True` inside the conversion
branch, so downstream reads of `supplied_hs_color` see this value. -/
def supplied_hs_color_after_convert (cfg : Config) (g : GroupVars) (kw : TurnOnArgs) : Bool :=
  supplied_hs_color kw || do_convert_temp_to_hs cfg g kw

def apply_hs_color (cfg : Config) (g : GroupVars) (kw : TurnOnArgs) : Bool :=
  supplied_hs_color_after_convert cfg g kw || do_convert_temp_to_hs cfg g kw ||
    apply_all_attributes g kw

/-- Source line 299 (reads the post-conversion `supplied_hs_color`). -/
def other_attributes_have_supplied_value (cfg : Config) (g : GroupVars) (kw : TurnOnArgs) : Bool :=
  supplied_hs_color_after_convert cfg g kw || supplied_color_temp kw || supplied_brightness kw

/-- Source line 300. -/
def other_attributes_use_old_values (g : GroupVars) (kw : TurnOnArgs) : Bool :=
  using_old_hs_color g kw || using_old_color_temp g kw || using_old_brightness g kw

/-- Source line 301. -/
def other_attributes_have_newer_values_than_white_value (cfg : Config) (g : GroupVars) (kw : TurnOnArgs) : Bool :=
  !supplied_white_value kw &&
    (other_attributes_have_supplied_value cfg g kw ||
      (using_old_white_value g kw && !other_attributes_use_old_values g kw))

/-- Source line 302. -/
def do_adapt_white_value (cfg : Config) (g : GroupVars) (kw : TurnOnArgs) : Bool :=
  cfg.auto_adapt_white_value && !is_reset_to_default g kw &&
    other_attributes_have_newer_values_than_white_value cfg g kw

/-- Source lines 303-304: the white value after the possible adaption from
the (post-conversion) hs color and the resolved brightness. -/
def new_white_value (cfg : Config) (g : GroupVars) (kw : TurnOnArgs) : Int :=
  if do_adapt_white_value cfg g kw then
    calculate_white_value cfg (new_hs_color cfg g kw) (new_brightness cfg g kw)
  else new_white_value_resolved cfg g kw

def apply_white_value (cfg : Config) (g : GroupVars) (kw : TurnOnArgs) : Bool :=
  supplied_white_value kw || do_adapt_white_value cfg g kw || apply_all_attributes g kw

/-- Source lines 308-309 (reads the post-conversion `supplied_hs_color`):
the projection-basis selector for the capability-limited buckets. -/
def hs_color_has_newer_value_than_color_temp (cfg : Config) (g : GroupVars) (kw : TurnOnArgs) : Bool :=
  !supplied_color_temp kw &&
    (supplied_hs_color_after_convert cfg g kw ||
      (using_old_hs_color g kw && !using_old_color_temp g kw))

/-- `SmartLightGroup._non_dimmable_on_by_temperature` (lines 139-141). -/
def non_dimmable_on_by_temperature (cfg : Config) (brightness temperature : Int) : Bool :=
  decide (brightness > cfg.threshold_lower_brightness_non_dimmable_lights) &&
    (decide (cfg.threshold_lower_temperature_white_lights ≤ temperature) &&
      decide (temperature ≤ cfg.threshold_upper_temperature_white_lights))

/-- `SmartLightGroup._non_dimmable_on_by_saturation` (lines 143-145). -/
def non_dimmable_on_by_saturation (cfg : Config) (brightness : Int) (saturation : Rat) : Bool :=
  decide (brightness > cfg.threshold_lower_brightness_non_dimmable_lights) &&
    decide (saturation < cfg.threshold_upper_saturation_white_lights)

/-- `SmartLightGroup._brightness_for_dimmable_by_temperature` (147-149). -/
def brightness_for_dimmable_by_temperature (cfg : Config) (brightness temperature : Int) : Int :=
  if cfg.threshold_lower_temperature_white_lights ≤ temperature ∧
      temperature ≤ cfg.threshold_upper_temperature_white_lights then brightness else 0

/-- `SmartLightGroup._brightness_for_dimmable_by_saturation` (151-152). -/
def brightness_for_dimmable_by_saturation (cfg : Config) (brightness : Int) (saturation : Rat) : Int :=
  if saturation < cfg.threshold_upper_saturation_white_lights then brightness else 0

/-- `SmartLightGroup._brightness_for_temperature` (154-155). -/
def brightness_for_temperature (cfg : Config) (brightness : Int) (saturation : Rat) : Int :=
  if saturation < cfg.threshold_upper_saturation_white_lights then brightness else 0

/-- Source lines 311-322. -/
def new_non_dimmable_on (cfg : Config) (g : GroupVars) (kw : TurnOnArgs) : Bool :=
  if hs_color_has_newer_value_than_color_temp cfg g kw then
    non_dimmable_on_by_saturation cfg (new_brightness cfg g kw) (new_hs_color cfg g kw).2
  else
    non_dimmable_on_by_temperature cfg (new_brightness cfg g kw) (new_color_temp cfg g kw)

def new_brightness_for_dimmable (cfg : Config) (g : GroupVars) (kw : TurnOnArgs) : Int :=
  if hs_color_has_newer_value_than_color_temp cfg g kw then
    brightness_for_dimmable_by_saturation cfg (new_brightness cfg g kw) (new_hs_color cfg g kw).2
  else
    brightness_for_dimmable_by_temperature cfg (new_brightness cfg g kw) (new_color_temp cfg g kw)

def new_brightness_for_temperature (cfg : Config) (g : GroupVars) (kw : TurnOnArgs) : Int :=
  if hs_color_has_newer_value_than_color_temp cfg g kw then
    brightness_for_temperature cfg (new_brightness cfg g kw) (new_hs_color cfg g kw).2
  else
    new_brightness cfg g kw

/-- Source line 324. -/
def use_color_temp_for_temperature_and_color_entities (cfg : Config) (g : GroupVars) (kw : TurnOnArgs) : Bool :=
  !hs_color_has_newer_value_than_color_temp cfg g kw && color_temp_before_hs_color

/-! ## Command construction (source lines 351-448) -/

/-- The data of the command for the temperature-and-color (FullColor)
bucket, source lines 431-438. -/
def temperature_and_color_data (cfg : Config) (g : GroupVars) (kw : TurnOnArgs) : CommandData :=
  if use_color_temp_for_temperature_and_color_entities cfg g kw then
    { brightness := some (new_brightness cfg g kw), colorTemp := some (new_color_temp cfg g kw) }
  else
    { brightness := some (new_brightness cfg g kw), hsColor := some (new_hs_color cfg g kw) }

/-- The per-bucket commands, in source order; a bucket's command is only
emitted when the bucket is non-empty. -/
def commands (cfg : Config) (g : GroupVars) (kw : TurnOnArgs) (b : Buckets) : List Command :=
  (if b.non_dimmable.isEmpty then [] else
    [⟨new_non_dimmable_on cfg g kw, b.non_dimmable, {}⟩]) ++
  (if b.dimmable.isEmpty then [] else
    [⟨true, b.dimmable, { brightness := some (new_brightness_for_dimmable cfg g kw) }⟩]) ++
  (if b.temperature.isEmpty then [] else
    [⟨true, b.temperature,
      { brightness := some (new_brightness_for_temperature cfg g kw),
        colorTemp := some (new_color_temp cfg g kw) }⟩]) ++
  (if b.color_and_white.isEmpty then [] else
    [⟨true, b.color_and_white,
      { brightness := some (new_brightness cfg g kw),
        hsColor := some (new_hs_color cfg g kw),
        whiteValue := some (new_white_value cfg g kw) }⟩]) ++
  (if b.color.isEmpty then [] else
    [⟨true, b.color,
      { brightness := some (new_brightness cfg g kw),
        hsColor := some (new_hs_color cfg g kw) }⟩]) ++
  (if b.temperature_and_color.isEmpty then [] else
    [⟨true, b.temperature_and_color, temperature_and_color_data cfg g kw⟩])

/-- `SmartLightGroup.async_turn_on`: classify the members against the live
state snapshot, resolve the target state, and build the per-bucket
commands.  The group's stored fields are returned unchanged (the method
never assigns to them); a `TypeError` during classification aborts the call
before any command is issued. -/
def async_turn_on (cfg : Config) (g : GroupVars) (entity_ids : List Nat)
    (getState : Nat → Option LightState) (kw : TurnOnArgs) :
    Except Unit (GroupVars × List Command) :=
  match classifyMembers entity_ids getState with
  | .error e => .error e
  | .ok b => .ok (g, commands cfg g kw b)

/-! ## ColorMath over the reals (the color-temperature to hs pipeline)

`SmartLightGroup._hs_color_for_temperature` composes
`color_util.color_temperature_mired_to_kelvin` and
`color_util.color_temperature_to_hs`.  The latter goes through a black-body
RGB approximation using `math.log` and `math.pow`, so this part is modelled
exactly over the real numbers (idealizing IEEE floats as reals). -/

noncomputable section

/-- `color_util.color_temperature_mired_to_kelvin`:
`math.floor(1000000 / mired_temperature)`. -/
def color_temperature_mired_to_kelvin (mired_temperature : ℝ) : ℝ :=
  ((⌊(1000000 : ℝ) / mired_temperature⌋ : ℤ) : ℝ)

/-- `color_util._bound` with its default minimum 0 and maximum 255. -/
def channel_bound (color_component : ℝ) : ℝ :=
  min (max color_component 0) 255

/-- `color_util._get_red`. -/
def get_red (temperature : ℝ) : ℝ :=
  if temperature ≤ 66 then 255
  else channel_bound (329.698727446 * (temperature - 60) ^ (-0.1332047592 : ℝ))

/-- `color_util._get_green`. -/
def get_green (temperature : ℝ) : ℝ :=
  if temperature ≤ 66 then
    channel_bound (99.4708025861 * Real.log temperature - 161.1195681661)
  else channel_bound (288.1221695283 * (temperature - 60) ^ (-0.0755148492 : ℝ))

/-- `color_util._get_blue`. -/
def get_blue (temperature : ℝ) : ℝ :=
  if 66 ≤ temperature then 255
  else if temperature ≤ 19 then 0
  else channel_bound (138.5177312231 * Real.log (temperature - 10) - 305.0447927307)

/-- The clamp at the head of `color_util.color_temperature_to_rgb`: a
Kelvin value below 1000 is raised to 1000, one above 40000 lowered to
40000. -/
def clamp_kelvin (color_temperature_kelvin : ℝ) : ℝ :=
  if color_temperature_kelvin < 1000 then 1000
  else if color_temperature_kelvin > 40000 then 40000
  else color_temperature_kelvin

/-- `color_util.color_temperature_to_rgb`: the Kelvin input is clamped to
`[1000, 40000]`, divided by 100 (`tmp_internal`), and fed to the three
channel approximations. -/
def color_temperature_to_rgb (color_temperature_kelvin : ℝ) : ℝ × ℝ × ℝ :=
  (get_red (clamp_kelvin color_temperature_kelvin / 100),
    get_green (clamp_kelvin color_temperature_kelvin / 100),
    get_blue (clamp_kelvin color_temperature_kelvin / 100))

/-- `colorsys.rgb_to_hsv` (Python standard library), channels in `[0, 1]`
scale; `(h / 6.0) % 1.0` is the fractional part. -/
def rgb_to_hsv (r g b : ℝ) : ℝ × ℝ × ℝ :=
  let maxc := max r (max g b)
  let minc := min r (min g b)
  let v := maxc
  if minc = maxc then (0, 0, v)
  else
    let s := (maxc - minc) / maxc
    let rc := (maxc - r) / (maxc - minc)
    let gc := (maxc - g) / (maxc - minc)
    let bc := (maxc - b) / (maxc - minc)
    let h := if r = maxc then bc - gc
      else if g = maxc then 2 + rc - bc
      else 4 + gc - rc
    (Int.fract (h / 6), s, v)

/-- Python `round(x, 3)`, up to its tie-breaking rule (Python rounds exact
half-thousandths to even; `round` here rounds them up — no input in this
development sits on such a tie). -/
def round3 (x : ℝ) : ℝ := ((round (x * 1000) : ℤ) : ℝ) / 1000

/-- `color_util.color_RGB_to_hsv`: channels in `[0, 255]` scale in, hue in
degrees and saturation/value in percent out, each rounded to 3 decimals. -/
def color_RGB_to_hsv (iR iG iB : ℝ) : ℝ × ℝ × ℝ :=
  let fHSV := rgb_to_hsv (iR / 255) (iG / 255) (iB / 255)
  (round3 (fHSV.1 * 360), round3 (fHSV.2.1 * 100), round3 (fHSV.2.2 * 100))

/-- `color_util.color_RGB_to_hs`: drop the value channel. -/
def color_RGB_to_hs (iR iG iB : ℝ) : ℝ × ℝ :=
  ((color_RGB_to_hsv iR iG iB).1, (color_RGB_to_hsv iR iG iB).2.1)

/-- `color_util.color_temperature_to_hs`. -/
def color_temperature_to_hs (color_temperature_kelvin : ℝ) : ℝ × ℝ :=
  color_RGB_to_hs (color_temperature_to_rgb color_temperature_kelvin).1
    (color_temperature_to_rgb color_temperature_kelvin).2.1
    (color_temperature_to_rgb color_temperature_kelvin).2.2

/-- `SmartLightGroup._hs_color_for_temperature` (source lines 157-160): the
exact model of the conversion from a mired color temperature to an hs
pair. -/
def hs_color_for_temperature (temperature : ℤ) : ℝ × ℝ :=
  color_temperature_to_hs (color_temperature_mired_to_kelvin (temperature : ℝ))

end

/-! ## Concrete fixtures for witnesses and counterexamples -/

/-- A stand-in for the injected mired-to-hs conversion in concrete
scenarios.  Every concrete statement below either does not exercise the
conversion branch or is accompanied by a theorem quantified over the
injected function showing the result does not depend on it. -/
def fixtureTempToHS : Int → Rat × Rat := fun _ => (0, 0)

/-- The configuration with every option at its schema default
(`default_brightness` 255, `default_color_temp` 320, `default_h` 50,
`default_s` 40, `default_white_value` 255, temperature thresholds 175/450,
saturation threshold 80.0, non-dimmable brightness threshold 205, both
auto toggles on). -/
def defaultConfig : Config :=
  { default_brightness := 255
    default_color_temp := 320
    default_h := 50
    default_s := 40
    default_white_value := 255
    auto_convert_temp_to_hs := true
    auto_adapt_white_value := true
    threshold_lower_temperature_white_lights := 175
    threshold_upper_temperature_white_lights := 450
    threshold_upper_saturation_white_lights := 80
    threshold_lower_brightness_non_dimmable_lights := 205
    tempToHS := fixtureTempToHS }

/-- A group that is off with no remembered attribute values (the `__init__`
state). -/
def offGroup : GroupVars :=
  { is_on := false
    available := false
    brightness := none
    hs_color := none
    color_temp := none
    min_mireds := some 154
    max_mireds := some 500
    white_value := none
    effect_list := none
    effect := none
    supported_features := 0 }

/-- A group that is off but still remembers a previous color temperature. -/
def offGroupWithOldTemp : GroupVars :=
  { offGroup with color_temp := some 300 }

/-- A group that is on with no remembered attribute values. -/
def onGroup : GroupVars :=
  { offGroup with is_on := true, available := true }

/-- A turn-on call with no light attributes. -/
def emptyArgs : TurnOnArgs :=
  { brightness := none, colorTemp := none, hsColor := none, whiteValue := none }

/-- A turn-on call supplying only a brightness. -/
def brightnessOnlyArgs : TurnOnArgs :=
  { emptyArgs with brightness := some 128 }

/-- A turn-on call supplying brightness 255, color temperature 300 and a
highly saturated hs color at once. -/
def bothColorArgs : TurnOnArgs :=
  { brightness := some 255, colorTemp := some 300, hsColor := some (0, 90), whiteValue := none }

/-- The two members of the C6 scenario: entity 1 supports brightness, color
and color temperature (FullColor); entity 2 supports nothing (OnOffOnly). -/
def scenarioStates : Nat → Option LightState := fun entity_id =>
  if entity_id = 1 then some ⟨some 19⟩
  else if entity_id = 2 then some ⟨some 0⟩
  else none

/-- A member snapshot whose state is present but carries no
supported-features attribute. -/
def featurelessStates : Nat → Option LightState := fun entity_id =>
  if entity_id = 1 then some ⟨none⟩ else none

/-! ## Classification lemmas -/

theorem classify_error_of_missing_features (ids : List Nat) (gs : Nat → Option LightState)
    (i : Nat) (st : LightState) (hmem : i ∈ ids) (hgs : gs i = some st)
    (hf : st.supported_features = none) :
    classifyMembers ids gs = .error () := by
  induction ids with
  | nil => cases hmem
  | cons a rest ih =>
    simp only [classifyMembers]
    rcases List.mem_cons.mp hmem with h | h
    · subst h
      simp [hgs, hf]
    · cases hga : gs a with
      | none => exact ih h
      | some sta =>
        cases hfa : sta.supported_features with
        | none => simp [hfa]
        | some sup => simp [hfa, ih h, Except.map]

theorem bucketList_addToBucket (k : BucketKind) (i support : Nat) (b : Buckets) :
    bucketList k (addToBucket i support b) =
      if classOf support = k then i :: bucketList k b else bucketList k b := by
  cases h : classOf support <;> cases k <;>
    simp [addToBucket, bucketList, h]

theorem classify_ok_bucketList (ids : List Nat) (gs : Nat → Option LightState) (b : Buckets)
    (hok : classifyMembers ids gs = .ok b) (k : BucketKind) :
    bucketList k b = ids.filter (fun i => memberClass gs i == some k) := by
  induction ids generalizing b with
  | nil =>
    simp only [classifyMembers] at hok
    cases hok
    cases k <;> rfl
  | cons a rest ih =>
    simp only [classifyMembers] at hok
    rw [List.filter_cons]
    cases hga : gs a with
    | none =>
      rw [hga] at hok
      have hm : (memberClass gs a == some k) = false := by
        simp [memberClass, hga]
      rw [hm]
      simp only [Bool.false_eq_true, if_false]
      exact ih b hok
    | some sta =>
      rw [hga] at hok
      cases hfa : sta.supported_features with
      | none => simp [hfa] at hok
      | some sup =>
        simp only [hfa] at hok
        cases hrest : classifyMembers rest gs with
        | error e => rw [hrest] at hok; cases hok
        | ok br =>
          rw [hrest] at hok
          simp only [Except.map, Except.ok.injEq] at hok
          subst hok
          have hm : (memberClass gs a == some k) = decide (classOf sup = k) := by
            simp only [memberClass, hga, hfa]
            rfl
          rw [hm, bucketList_addToBucket, ih br hrest]
          by_cases hk : classOf sup = k
          · simp [hk]
          · simp [hk]

theorem classify_ok_features_present (ids : List Nat) (gs : Nat → Option LightState) (b : Buckets)
    (hok : classifyMembers ids gs = .ok b) (i : Nat) (hmem : i ∈ ids) (st : LightState)
    (hgs : gs i = some st) : st.supported_features.isSome = true := by
  cases hf : st.supported_features with
  | none =>
    rw [classify_error_of_missing_features ids gs i st hmem hgs hf] at hok
    cases hok
  | some sup => rfl

/-- Claim C5: for any member list and state snapshot, the classification is
a strict partition: a member with a live state (and hence, classification
having succeeded, an integer feature mask) lands in exactly one of the six
buckets, chosen by the priority chain `classOf`; a member with no live
state lands in none of them. -/
theorem classification_is_strict_partition (ids : List Nat) (gs : Nat → Option LightState)
    (b : Buckets) (hok : classifyMembers ids gs = .ok b) (i : Nat) (hmem : i ∈ ids) :
    (∀ st, gs i = some st → st.supported_features.isSome = true) ∧
    (gs i = none → ∀ k, i ∉ bucketList k b) ∧
    (∀ st support, gs i = some st → st.supported_features = some support →
      i ∈ bucketList (classOf support) b ∧
        ∀ k, k ≠ classOf support → i ∉ bucketList k b) := by
  refine ⟨fun st hgs => classify_ok_features_present ids gs b hok i hmem st hgs, ?_, ?_⟩
  · intro hnone k
    rw [classify_ok_bucketList ids gs b hok k]
    intro hin
    have := List.of_mem_filter hin
    simp [memberClass, hnone] at this
  · intro st support hgs hf
    constructor
    · rw [classify_ok_bucketList ids gs b hok (classOf support)]
      refine List.mem_filter.mpr ⟨hmem, ?_⟩
      simp [memberClass, hgs, hf]
    · intro k hk
      rw [classify_ok_bucketList ids gs b hok k]
      intro hin
      have := List.of_mem_filter hin
      simp [memberClass, hgs, hf] at this
      exact hk this.symm

/-- Witness for C5: in the two-member scenario the FullColor member 1 is
classified, and lands in the temperature-and-color bucket. -/
theorem classification_is_strict_partition_witness :
    classifyMembers [1, 2, 3] scenarioStates = .ok ⟨[1], [], [], [], [], [2]⟩ ∧
    (1 : Nat) ∈ [1, 2, 3] ∧
    1 ∈ bucketList .temperatureAndColor (⟨[1], [], [], [], [], [2]⟩ : Buckets) := by
  refine ⟨rfl, by decide, ?_⟩
  exact ((classification_is_strict_partition [1, 2, 3] scenarioStates
    ⟨[1], [], [], [], [], [2]⟩ rfl 1 (by decide)).2.2
    ⟨some 19⟩ 19 rfl rfl).1

/-- Claim C10: if some member whose state snapshot is present lacks the
integer supported-features attribute, the bitwise capability test is
undefined (Python `None & int` raises `TypeError`) and the call fails
before any bucket command is issued. -/
theorem missing_features_aborts_turn_on (cfg : Config) (g : GroupVars) (ids : List Nat)
    (gs : Nat → Option LightState) (kw : TurnOnArgs) (i : Nat) (st : LightState)
    (hmem : i ∈ ids) (hgs : gs i = some st) (hf : st.supported_features = none) :
    async_turn_on cfg g ids gs kw = .error () := by
  unfold async_turn_on
  rw [classify_error_of_missing_features ids gs i st hmem hgs hf]

/-- Witness for C10: a single member with a featureless live state makes
the whole call error out, so no command is issued. -/
theorem missing_features_aborts_turn_on_witness :
    async_turn_on defaultConfig offGroup [1] featurelessStates emptyArgs = .error () :=
  missing_features_aborts_turn_on defaultConfig offGroup [1] featurelessStates emptyArgs
    1 ⟨none⟩ (by decide) rfl rfl

/-- Claim C9: `async_turn_on` never mutates the group's own stored state
fields; a successful call returns them unchanged and only produces
commands for the members. -/
theorem turn_on_preserves_group_state (cfg : Config) (g : GroupVars) (ids : List Nat)
    (gs : Nat → Option LightState) (kw : TurnOnArgs) (st : GroupVars) (cmds : List Command)
    (h : async_turn_on cfg g ids gs kw = .ok (st, cmds)) : st = g := by
  unfold async_turn_on at h
  cases hc : classifyMembers ids gs with
  | error e => rw [hc] at h; cases h
  | ok b =>
    rw [hc] at h
    simp only [Except.ok.injEq, Prod.mk.injEq] at h
    exact h.1.symm

/-- Witness for C9: the concrete C6 scenario call succeeds and hands back
the group fields untouched. -/
theorem turn_on_preserves_group_state_witness :
    async_turn_on defaultConfig offGroup [1, 2] scenarioStates emptyArgs =
      .ok (offGroup,
        [⟨true, [2], {}⟩,
         ⟨true, [1], { brightness := some 255, colorTemp := some 320 }⟩]) ∧
    offGroup = offGroup := by
  refine ⟨rfl, ?_⟩
  exact turn_on_preserves_group_state defaultConfig offGroup [1, 2] scenarioStates emptyArgs
    offGroup
    [⟨true, [2], {}⟩, ⟨true, [1], { brightness := some 255, colorTemp := some 320 }⟩]
    rfl

/-! ## Claim C1: the reset-to-default rule -/

/-- Claim C1 counterexample: with the group off and only a brightness
supplied, the claimed formula `wasOff OR (emptyCommandResetsToDefaults AND
emptyCommand)` is true, yet the code's reset flag is false, and the
unsupplied color temperature carries over the previous value 300 instead of
resolving to the configured default 320. -/
theorem reset_to_default_claim_counterexample :
    is_reset_to_default offGroupWithOldTemp brightnessOnlyArgs = false ∧
    (was_off offGroupWithOldTemp ||
      (empty_turn_on_is_reset_to_default && no_light_attr_supplied brightnessOnlyArgs)) = true ∧
    new_color_temp defaultConfig offGroupWithOldTemp brightnessOnlyArgs = 300 ∧
    defaultConfig.default_color_temp = 320 :=
  ⟨rfl, rfl, rfl, rfl⟩

/-- Claim C1 amended: the reset flag holds exactly when NO attribute was
supplied AND (the empty-command-resets toggle is set OR the group was off);
in particular, when the group was off but at least one attribute was
supplied, the flag is false and an unsupplied brightness or color
temperature with a previous value carries that value over instead of
resolving to the default. -/
theorem reset_to_default_amended (cfg : Config) (g : GroupVars) (kw : TurnOnArgs) :
    is_reset_to_default g kw =
      (no_light_attr_supplied kw && (empty_turn_on_is_reset_to_default || was_off g)) ∧
    (g.is_on = false → no_light_attr_supplied kw = false →
      (∀ b, kw.brightness = none → g.brightness = some b → new_brightness cfg g kw = b) ∧
      (∀ ct, kw.colorTemp = none → g.color_temp = some ct → new_color_temp cfg g kw = ct)) := by
  constructor
  · simp [is_reset_to_default, Bool.and_comm]
  · intro _ hna
    have hreset : is_reset_to_default g kw = false := by
      simp [is_reset_to_default, hna]
    constructor
    · intro b hb hgb
      simp [new_brightness, hb, hgb, allow_using_old_values, hreset]
    · intro ct hct hgct
      simp [new_color_temp, hct, hgct, allow_using_old_values, hreset]

/-- Witness for the amended C1: the group is off, brightness alone is
supplied, and the remembered color temperature 300 carries over. -/
theorem reset_to_default_amended_witness :
    offGroupWithOldTemp.is_on = false ∧
    no_light_attr_supplied brightnessOnlyArgs = false ∧
    new_color_temp defaultConfig offGroupWithOldTemp brightnessOnlyArgs = 300 := by
  refine ⟨rfl, rfl, ?_⟩
  exact ((reset_to_default_amended defaultConfig offGroupWithOldTemp brightnessOnlyArgs).2
    rfl rfl).2 300 rfl rfl

/-! ## Claim C2: the projection-basis selector -/

/-- Claim C2 counterexample: with brightness 255, color temperature 300 and
the saturated hs color (0, 90) all supplied in the same call, the code uses
the temperature basis (the selector is false) and turns the non-dimmable
bucket on, while the saturation basis required by the claim would give
off. -/
theorem projection_basis_claim_counterexample :
    supplied_hs_color bothColorArgs = true ∧
    supplied_color_temp bothColorArgs = true ∧
    hs_color_has_newer_value_than_color_temp defaultConfig offGroup bothColorArgs = false ∧
    new_non_dimmable_on defaultConfig offGroup bothColorArgs = true ∧
    non_dimmable_on_by_saturation defaultConfig
      (new_brightness defaultConfig offGroup bothColorArgs)
      (new_hs_color defaultConfig offGroup bothColorArgs).2 = false :=
  ⟨rfl, rfl, rfl, rfl, rfl⟩

/-- Claim C2 amended: the saturation basis is selected exactly when the
color temperature was NOT supplied and (the hs color was supplied, or the
hs color carries over while the color temperature does not, or the
auto-conversion recomputed the hs color from a carried-over color
temperature).  Ties — both supplied, or both defaulted — go to the
temperature basis. -/
theorem projection_basis_amended (cfg : Config) (g : GroupVars) (kw : TurnOnArgs) :
    hs_color_has_newer_value_than_color_temp cfg g kw =
      (!supplied_color_temp kw &&
        (supplied_hs_color kw ||
          (!supplied_hs_color kw && allow_using_old_values g kw &&
            g.hs_color.isSome && !g.color_temp.isSome) ||
          (cfg.auto_convert_temp_to_hs && allow_using_old_values g kw &&
            !supplied_hs_color kw && g.color_temp.isSome && !g.hs_color.isSome))) := by
  have key : ∀ (sct shs hct hhs rl au : Bool),
      (!sct && ((shs || (au && !rl && (!shs && (sct ||
          (!sct && hct && !rl && !(!shs && hhs && !rl)))))) ||
        (!shs && hhs && !rl && !(!sct && hct && !rl)))) =
      (!sct && (shs || (!shs && !rl && hhs && !hct) ||
        (au && !rl && !shs && hct && !hhs))) := by
    decide
  exact key (supplied_color_temp kw) (supplied_hs_color kw) g.color_temp.isSome
    g.hs_color.isSome (is_reset_to_default g kw) cfg.auto_convert_temp_to_hs

/-! ## Claim C3: the white-value derivation rule -/

/-- Claim C3: with the white-value auto-adaption enabled, the reset flag
false, the white value not supplied, and some other attribute carrying
newer information than the white value, the resolved white value is derived
from the resolved hs color and the resolved brightness. -/
theorem white_value_derivation (cfg : Config) (g : GroupVars) (kw : TurnOnArgs)
    (hauto : cfg.auto_adapt_white_value = true)
    (hreset : is_reset_to_default g kw = false)
    (hwv : kw.whiteValue = none)
    (_hnewer : (kw.brightness.isSome || kw.colorTemp.isSome || kw.hsColor.isSome ||
      ((using_old_brightness g kw || using_old_color_temp g kw || using_old_hs_color g kw) &&
        !using_old_white_value g kw)) = true) :
    new_white_value cfg g kw =
      calculate_white_value cfg (new_hs_color cfg g kw) (new_brightness cfg g kw) := by
  have hna : no_light_attr_supplied kw = false := by
    have h := hreset
    simpa [is_reset_to_default, empty_turn_on_is_reset_to_default] using h
  have hswv : supplied_white_value kw = false := by
    simp [supplied_white_value, hwv]
  have hda : do_adapt_white_value cfg g kw = true := by
    cases hsb : supplied_brightness kw <;> cases hsct : supplied_color_temp kw <;>
      cases hshs : supplied_hs_color kw
    · exfalso
      rw [no_light_attr_supplied, hsb, hsct, hshs, hswv] at hna
      simp at hna
    all_goals
      simp [do_adapt_white_value, hauto, hreset,
        other_attributes_have_newer_values_than_white_value,
        other_attributes_have_supplied_value, supplied_hs_color_after_convert,
        supplied_white_value, hwv, hsb, hsct, hshs]
  simp [new_white_value, hda]

/-- Witness for C3: the group is on with nothing remembered, brightness
alone is supplied, and the white value is derived. -/
theorem white_value_derivation_witness :
    is_reset_to_default onGroup brightnessOnlyArgs = false ∧
    new_white_value defaultConfig onGroup brightnessOnlyArgs =
      calculate_white_value defaultConfig
        (new_hs_color defaultConfig onGroup brightnessOnlyArgs)
        (new_brightness defaultConfig onGroup brightnessOnlyArgs) := by
  refine ⟨rfl, ?_⟩
  exact white_value_derivation defaultConfig onGroup brightnessOnlyArgs rfl rfl rfl rfl

/-! ## Claim C4: exclusivity of the FullColor command -/

/-- Claim C4: whenever the temperature-and-color (FullColor) bucket is
non-empty, its command carries a brightness and exactly one of color
temperature or hs color — the color temperature exactly when the
projection basis is the color temperature, the hs color otherwise, and
never both. -/
theorem full_color_command_exclusive (cfg : Config) (g : GroupVars) (kw : TurnOnArgs)
    (ids : List Nat) (gs : Nat → Option LightState) (b : Buckets)
    (hok : classifyMembers ids gs = .ok b) (hne : b.temperature_and_color ≠ []) :
    async_turn_on cfg g ids gs kw = .ok (g, commands cfg g kw b) ∧
    (⟨true, b.temperature_and_color, temperature_and_color_data cfg g kw⟩ : Command) ∈
      commands cfg g kw b ∧
    (temperature_and_color_data cfg g kw).brightness = some (new_brightness cfg g kw) ∧
    (temperature_and_color_data cfg g kw).colorTemp.isSome =
      !hs_color_has_newer_value_than_color_temp cfg g kw ∧
    (temperature_and_color_data cfg g kw).hsColor.isSome =
      hs_color_has_newer_value_than_color_temp cfg g kw ∧
    ¬((temperature_and_color_data cfg g kw).colorTemp.isSome = true ∧
      (temperature_and_color_data cfg g kw).hsColor.isSome = true) := by
  have hempty : b.temperature_and_color.isEmpty = false := by
    cases hl : b.temperature_and_color with
    | nil => exact absurd hl hne
    | cons x xs => rfl
  have huct : use_color_temp_for_temperature_and_color_entities cfg g kw =
      !hs_color_has_newer_value_than_color_temp cfg g kw := by
    simp [use_color_temp_for_temperature_and_color_entities, color_temp_before_hs_color]
  refine ⟨?_, ?_, ?_, ?_, ?_, ?_⟩
  · unfold async_turn_on
    rw [hok]
  · unfold commands
    simp [hempty]
  · cases hn : hs_color_has_newer_value_than_color_temp cfg g kw <;>
      simp [temperature_and_color_data, huct, hn]
  · cases hn : hs_color_has_newer_value_than_color_temp cfg g kw <;>
      simp [temperature_and_color_data, huct, hn]
  · cases hn : hs_color_has_newer_value_than_color_temp cfg g kw <;>
      simp [temperature_and_color_data, huct, hn]
  · cases hn : hs_color_has_newer_value_than_color_temp cfg g kw <;>
      simp [temperature_and_color_data, huct, hn]

/-- Witness for C4: the one-member FullColor scenario has its command in
the outbound list. -/
theorem full_color_command_exclusive_witness :
    (⟨true, [1], temperature_and_color_data defaultConfig offGroup emptyArgs⟩ : Command) ∈
      commands defaultConfig offGroup emptyArgs ⟨[1], [], [], [], [], []⟩ :=
  (full_color_command_exclusive defaultConfig offGroup emptyArgs [1] scenarioStates
    ⟨[1], [], [], [], [], []⟩ rfl (by decide)).2.1

/-! ## Claim C6: the default turn-on scenario -/

/-- Replace the injected conversion of the default configuration. -/
def configWith (t2hs : Int → Rat × Rat) : Config :=
  { defaultConfig with tempToHS := t2hs }

/-- Claim C6 counterexample: in the scenario (group off, one FullColor and
one OnOffOnly member, default configuration, no attributes supplied) the
FullColor bucket's command carries the color temperature 320 and NO
chromaticity. -/
theorem default_scenario_claim_counterexample :
    async_turn_on defaultConfig offGroup [1, 2] scenarioStates emptyArgs =
      .ok (offGroup,
        [⟨true, [2], {}⟩,
         ⟨true, [1], { brightness := some 255, colorTemp := some 320 }⟩]) ∧
    (temperature_and_color_data defaultConfig offGroup emptyArgs).hsColor = none ∧
    (temperature_and_color_data defaultConfig offGroup emptyArgs).colorTemp = some 320 :=
  ⟨rfl, rfl, rfl⟩

/-- Claim C6 amended: for any injected conversion function (the conversion
branch is not taken on the reset path), the scenario resolves all four
attributes to the configured defaults, the FullColor bucket receives
brightness 255 with color temperature 320 (the basis is the temperature
since no chromaticity was supplied), and the OnOffOnly bucket is turned on
because 255 > 205 and 175 ≤ 320 ≤ 450. -/
theorem default_scenario_amended (t2hs : Int → Rat × Rat) :
    new_brightness (configWith t2hs) offGroup emptyArgs = 255 ∧
    new_color_temp (configWith t2hs) offGroup emptyArgs = 320 ∧
    new_hs_color (configWith t2hs) offGroup emptyArgs = (50, 40) ∧
    new_white_value (configWith t2hs) offGroup emptyArgs = 255 ∧
    hs_color_has_newer_value_than_color_temp (configWith t2hs) offGroup emptyArgs = false ∧
    new_non_dimmable_on (configWith t2hs) offGroup emptyArgs = true ∧
    async_turn_on (configWith t2hs) offGroup [1, 2] scenarioStates emptyArgs =
      .ok (offGroup,
        [⟨true, [2], {}⟩,
         ⟨true, [1], { brightness := some 255, colorTemp := some 320 }⟩]) :=
  ⟨rfl, rfl, rfl, rfl, rfl, rfl, rfl⟩

/-! ## Claim C7: the white-value formula -/

/-- Claim C7 counterexample: at hue 0, saturation 50, brightness 201 the
minimum RGB channel is 100 and the product 100 * 201 / 255 = 78.82...; the
code truncates it to 78, while the claimed rounding gives 79. -/
theorem white_value_rounding_counterexample :
    calculate_white_value defaultConfig (0, 50) 201 = 78 ∧
    calculate_white_value_claimed defaultConfig (0, 50) 201 = 79 := by
  constructor
  · norm_num [calculate_white_value, color_hsv_to_RGB, hsv_to_rgb, pyInt,
      Int.floor_eq_iff, defaultConfig]
  · norm_num [calculate_white_value_claimed, color_hsv_to_RGB, hsv_to_rgb, pyInt,
      Int.floor_eq_iff, round_eq, defaultConfig]

/-- Claim C7 amended: when the saturation is below the threshold the white
value is the minimum RGB channel of the converted (hue, saturation,
brightness-as-percent) triple times brightness/255, TRUNCATED toward zero
(not rounded); it is 0 whenever the saturation is at or above the
threshold. -/
theorem white_value_formula (cfg : Config) (hs_color : Rat × Rat) (brightness : Int) :
    (hs_color.2 < cfg.threshold_upper_saturation_white_lights →
      calculate_white_value cfg hs_color brightness =
        pyInt ((min (color_hsv_to_RGB hs_color.1 hs_color.2 ((brightness : Rat) / 255 * 100)).1
          (min (color_hsv_to_RGB hs_color.1 hs_color.2 ((brightness : Rat) / 255 * 100)).2.1
            (color_hsv_to_RGB hs_color.1 hs_color.2 ((brightness : Rat) / 255 * 100)).2.2) : Rat) *
          ((brightness : Rat) / 255))) ∧
    (cfg.threshold_upper_saturation_white_lights ≤ hs_color.2 →
      calculate_white_value cfg hs_color brightness = 0) := by
  constructor
  · intro h
    simp [calculate_white_value, h]
  · intro h
    simp [calculate_white_value, not_lt.mpr h]

/-- Witness for the amended C7: a saturation of 90 is at or above the
default threshold 80 and yields white value 0. -/
theorem white_value_formula_witness :
    defaultConfig.threshold_upper_saturation_white_lights ≤ (90 : Rat) ∧
    calculate_white_value defaultConfig (0, 90) 100 = 0 := by
  refine ⟨by decide, ?_⟩
  exact (white_value_formula defaultConfig (0, 90) 100).2 (by decide)

/-! ## Claim C8: clamping behavior of the temperature-to-hs conversion

Helper facts: bounds for `channel_bound`, decimal bounds for `Real.log 10`
and `Real.log 20`, and concrete evaluations of the pipeline at mireds 600,
500 and 1000. -/

theorem channel_bound_nonneg (x : ℝ) : 0 ≤ channel_bound x :=
  le_min (le_max_right x 0) (by norm_num)

theorem channel_bound_le (x : ℝ) : channel_bound x ≤ 255 :=
  min_le_right _ _

theorem channel_bound_eq_self (x : ℝ) (h0 : 0 ≤ x) (h255 : x ≤ 255) :
    channel_bound x = x := by
  unfold channel_bound
  rw [max_eq_left h0, min_eq_left h255]

theorem get_green_bounds (t : ℝ) : 0 ≤ get_green t ∧ get_green t ≤ 255 := by
  unfold get_green
  split_ifs <;> exact ⟨channel_bound_nonneg _, channel_bound_le _⟩

theorem log_ten_gt : (2.3 : ℝ) < Real.log 10 := by
  rw [Real.lt_log_iff_exp_lt (by norm_num : (0 : ℝ) < 10)]
  have h23 : Real.exp 23 < 10 ^ (10 : ℕ) := by
    have h1 : Real.exp 1 ^ (23 : ℕ) < (2.7182818286 : ℝ) ^ (23 : ℕ) :=
      pow_lt_pow_left₀ Real.exp_one_lt_d9 (le_of_lt (Real.exp_pos 1)) (by norm_num)
    have h2 : ((2.7182818286 : ℝ)) ^ (23 : ℕ) < 10 ^ (10 : ℕ) := by norm_num
    have h3 : Real.exp 23 = Real.exp 1 ^ (23 : ℕ) := by
      rw [← Real.exp_nat_mul]
      norm_num
    linarith
  have hpow : Real.exp 2.3 ^ (10 : ℕ) = Real.exp 23 := by
    rw [← Real.exp_nat_mul]
    norm_num
  by_contra hcon
  push_neg at hcon
  have hmono : (10 : ℝ) ^ (10 : ℕ) ≤ Real.exp 2.3 ^ (10 : ℕ) :=
    pow_le_pow_left₀ (by norm_num) hcon 10
  rw [hpow] at hmono
  linarith

theorem log_ten_lt : Real.log 10 < 2.4 := by
  rw [Real.log_lt_iff_lt_exp (by norm_num : (0 : ℝ) < 10)]
  have h12 : (10 : ℝ) ^ (5 : ℕ) < Real.exp 12 := by
    have h1 : ((2.7182818283 : ℝ)) ^ (12 : ℕ) < Real.exp 1 ^ (12 : ℕ) :=
      pow_lt_pow_left₀ Real.exp_one_gt_d9 (by norm_num) (by norm_num)
    have h2 : (10 : ℝ) ^ (5 : ℕ) < (2.7182818283 : ℝ) ^ (12 : ℕ) := by norm_num
    have h3 : Real.exp 12 = Real.exp 1 ^ (12 : ℕ) := by
      rw [← Real.exp_nat_mul]
      norm_num
    linarith
  have hpow : Real.exp 2.4 ^ (5 : ℕ) = Real.exp 12 := by
    rw [← Real.exp_nat_mul]
    norm_num
  by_contra hcon
  push_neg at hcon
  have hmono : Real.exp 2.4 ^ (5 : ℕ) ≤ (10 : ℝ) ^ (5 : ℕ) :=
    pow_le_pow_left₀ (le_of_lt (Real.exp_pos _)) hcon 5
  rw [hpow] at hmono
  linarith

theorem log_twenty_gt : (2.99 : ℝ) < Real.log 20 := by
  have h : Real.log 20 = Real.log 2 + Real.log 10 := by
    rw [← Real.log_mul (by norm_num) (by norm_num)]
    norm_num
  rw [h]
  have h2 := Real.log_two_gt_d9
  have h10 := log_ten_gt
  linarith

theorem log_twenty_lt : Real.log 20 < 3.094 := by
  have h : Real.log 20 = Real.log 2 + Real.log 10 := by
    rw [← Real.log_mul (by norm_num) (by norm_num)]
    norm_num
  rw [h]
  have h2 := Real.log_two_lt_d9
  have h10 := log_ten_lt
  linarith

theorem rgb_to_hsv_sat (r g b : ℝ)
    (hne : ¬ min r (min g b) = max r (max g b)) :
    (rgb_to_hsv r g b).2.1 = (max r (max g b) - min r (min g b)) / max r (max g b) := by
  simp only [rgb_to_hsv]
  rw [if_neg hne]

theorem round3_le (x : ℝ) : round3 x ≤ x + 1 / 1000 := by
  unfold round3
  have h : ((round (x * 1000) : ℤ) : ℝ) ≤ x * 1000 + 1 / 2 := by
    rw [round_eq]
    exact Int.floor_le (x * 1000 + 1 / 2)
  linarith

theorem clamp_kelvin_of_le (x : ℝ) (hx : x ≤ 1000) : clamp_kelvin x = 1000 := by
  unfold clamp_kelvin
  by_cases h : x < 1000
  · rw [if_pos h]
  · rw [if_neg h, if_neg (by linarith : ¬x > 40000)]
    exact le_antisymm hx (not_lt.mp h)

theorem clamp_kelvin_2000 : clamp_kelvin 2000 = 2000 := by
  unfold clamp_kelvin
  rw [if_neg (by norm_num), if_neg (by norm_num)]

theorem clamp_kelvin_1666 : clamp_kelvin 1666 = 1666 := by
  unfold clamp_kelvin
  rw [if_neg (by norm_num), if_neg (by norm_num)]

theorem get_red_at (t : ℝ) (ht : t ≤ 66) : get_red t = 255 := by
  unfold get_red
  rw [if_pos ht]

theorem get_blue_1666 : get_blue ((1666 : ℝ) / 100) = 0 := by
  unfold get_blue
  rw [if_neg (by norm_num), if_pos (by norm_num)]

theorem get_blue_2000_bounds :
    13 < get_blue ((2000 : ℝ) / 100) ∧ get_blue ((2000 : ℝ) / 100) < 28 := by
  have h1 := log_ten_gt
  have h2 := log_ten_lt
  unfold get_blue
  rw [if_neg (by norm_num), if_neg (by norm_num)]
  rw [show (2000 : ℝ) / 100 - 10 = 10 by norm_num]
  rw [channel_bound_eq_self _ (by linarith) (by linarith)]
  constructor <;> linarith

theorem get_green_2000_bounds :
    136 < get_green ((2000 : ℝ) / 100) ∧ get_green ((2000 : ℝ) / 100) ≤ 255 := by
  have h1 := log_twenty_gt
  have h2 := log_twenty_lt
  unfold get_green
  rw [if_pos (by norm_num)]
  rw [show (2000 : ℝ) / 100 = 20 by norm_num]
  rw [channel_bound_eq_self _ (by linarith) (by linarith)]
  constructor <;> linarith

theorem rgb_at_2000 : color_temperature_to_rgb 2000 =
    (255, get_green ((2000 : ℝ) / 100), get_blue ((2000 : ℝ) / 100)) := by
  unfold color_temperature_to_rgb
  rw [clamp_kelvin_2000, get_red_at _ (by norm_num)]

theorem rgb_at_1666 : color_temperature_to_rgb 1666 =
    (255, get_green ((1666 : ℝ) / 100), 0) := by
  unfold color_temperature_to_rgb
  rw [clamp_kelvin_1666, get_red_at _ (by norm_num), get_blue_1666]

theorem kelvin_of_600 : color_temperature_mired_to_kelvin (((600 : ℤ)) : ℝ) = 1666 := by
  unfold color_temperature_mired_to_kelvin
  rw [show ((((600 : ℤ)) : ℝ)) = (600 : ℝ) by norm_num]
  rw [show ⌊(1000000 : ℝ) / 600⌋ = 1666 by
    rw [Int.floor_eq_iff]
    constructor <;> norm_num]
  norm_num

theorem kelvin_of_500 : color_temperature_mired_to_kelvin (((500 : ℤ)) : ℝ) = 2000 := by
  unfold color_temperature_mired_to_kelvin
  rw [show ((((500 : ℤ)) : ℝ)) = (500 : ℝ) by norm_num]
  rw [show ⌊(1000000 : ℝ) / 500⌋ = 2000 by
    rw [Int.floor_eq_iff]
    constructor <;> norm_num]
  norm_num

theorem kelvin_of_1000 : color_temperature_mired_to_kelvin (((1000 : ℤ)) : ℝ) = 1000 := by
  unfold color_temperature_mired_to_kelvin
  rw [show ((((1000 : ℤ)) : ℝ)) = (1000 : ℝ) by norm_num]
  rw [show ⌊(1000000 : ℝ) / 1000⌋ = 1000 by
    rw [Int.floor_eq_iff]
    constructor <;> norm_num]
  norm_num

theorem sat_at_600 : (hs_color_for_temperature 600).2 = 100 := by
  obtain ⟨hg0, hg255⟩ := get_green_bounds ((1666 : ℝ) / 100)
  unfold hs_color_for_temperature
  rw [kelvin_of_600]
  unfold color_temperature_to_hs
  rw [rgb_at_1666]
  simp only [color_RGB_to_hs, color_RGB_to_hsv]
  rw [show (255 : ℝ) / 255 = 1 by norm_num, show (0 : ℝ) / 255 = 0 by norm_num]
  have hmax : max (1 : ℝ) (max (get_green ((1666 : ℝ) / 100) / 255) 0) = 1 := by
    apply max_eq_left
    apply max_le
    · linarith
    · norm_num
  have hmin : min (1 : ℝ) (min (get_green ((1666 : ℝ) / 100) / 255) 0) = 0 := by
    rw [min_eq_right (by linarith : (0 : ℝ) ≤ get_green ((1666 : ℝ) / 100) / 255)]
    exact min_eq_right (by norm_num)
  have hne : ¬ min (1 : ℝ) (min (get_green ((1666 : ℝ) / 100) / 255) 0) =
      max (1 : ℝ) (max (get_green ((1666 : ℝ) / 100) / 255) 0) := by
    rw [hmin, hmax]
    norm_num
  rw [rgb_to_hsv_sat _ _ _ hne, hmin, hmax]
  rw [show ((1 : ℝ) - 0) / 1 * 100 = 100 by norm_num]
  unfold round3
  rw [show (100 : ℝ) * 1000 = 100000 by norm_num]
  rw [show round (100000 : ℝ) = 100000 by
    rw [round_eq, Int.floor_eq_iff]
    constructor <;> norm_num]
  norm_num

theorem sat_at_500_lt : (hs_color_for_temperature 500).2 < 95 := by
  obtain ⟨hg1, hg2⟩ := get_green_2000_bounds
  obtain ⟨hb1, hb2⟩ := get_blue_2000_bounds
  unfold hs_color_for_temperature
  rw [kelvin_of_500]
  unfold color_temperature_to_hs
  rw [rgb_at_2000]
  simp only [color_RGB_to_hs, color_RGB_to_hsv]
  rw [show (255 : ℝ) / 255 = 1 by norm_num]
  have hgb : get_blue ((2000 : ℝ) / 100) / 255 ≤ get_green ((2000 : ℝ) / 100) / 255 := by
    linarith
  have hmax : max (1 : ℝ)
      (max (get_green ((2000 : ℝ) / 100) / 255) (get_blue ((2000 : ℝ) / 100) / 255)) = 1 := by
    rw [max_eq_left hgb]
    exact max_eq_left (by linarith)
  have hmin : min (1 : ℝ)
      (min (get_green ((2000 : ℝ) / 100) / 255) (get_blue ((2000 : ℝ) / 100) / 255)) =
      get_blue ((2000 : ℝ) / 100) / 255 := by
    rw [min_eq_right hgb]
    exact min_eq_right (by linarith)
  have hne : ¬ min (1 : ℝ)
      (min (get_green ((2000 : ℝ) / 100) / 255) (get_blue ((2000 : ℝ) / 100) / 255)) =
      max (1 : ℝ)
        (max (get_green ((2000 : ℝ) / 100) / 255) (get_blue ((2000 : ℝ) / 100) / 255)) := by
    rw [hmin, hmax]
    intro hcontra
    have hb255 : get_blue ((2000 : ℝ) / 100) = 255 := by linarith
    linarith
  rw [rgb_to_hsv_sat _ _ _ hne, hmin, hmax]
  have hle := round3_le ((1 - get_blue ((2000 : ℝ) / 100) / 255) / 1 * 100)
  linarith

/-- Claim C8 counterexample: mireds 600 lies outside the advertised
[154, 500] range, yet its chromaticity differs from that of the nearest
bound 500 (their saturations are 100 and below 95): the conversion
extrapolates rather than clamping to the device range. -/
theorem temperature_to_hs_not_clamped_to_device_range :
    hs_color_for_temperature 600 ≠ hs_color_for_temperature 500 := by
  intro h
  have h2 := congrArg Prod.snd h
  rw [sat_at_600] at h2
  have h3 := sat_at_500_lt
  rw [← h2] at h3
  norm_num at h3

/-- Claim C8 amended: the conversion is total with no error case, but the
only clamping is the Kelvin clamp to [1000, 40000] inside the external
color utility — the advertised [minMireds, maxMireds] range plays no role
(mireds between 500 and 1000 extrapolate).  Every mireds value of at least
1000 (Kelvin at most 1000) collapses to the chromaticity of 1000 mireds. -/
theorem temperature_to_hs_kelvin_clamp (m : ℤ) (hm : 1000 ≤ m) :
    hs_color_for_temperature m = hs_color_for_temperature 1000 := by
  have hmr : (1000 : ℝ) ≤ (m : ℝ) := by exact_mod_cast hm
  have hm0 : (0 : ℝ) < (m : ℝ) := by linarith
  have hdiv : (1000000 : ℝ) / (m : ℝ) ≤ 1000 := by
    rw [div_le_iff₀ hm0]
    linarith
  have hfl : color_temperature_mired_to_kelvin ((m : ℝ)) ≤ 1000 := by
    unfold color_temperature_mired_to_kelvin
    have h1 : ⌊(1000000 : ℝ) / (m : ℝ)⌋ ≤ ⌊(1000 : ℝ)⌋ := Int.floor_le_floor hdiv
    have h2 : ⌊(1000 : ℝ)⌋ = 1000 := by
      rw [Int.floor_eq_iff]
      constructor <;> norm_num
    rw [h2] at h1
    exact_mod_cast h1
  unfold hs_color_for_temperature color_temperature_to_hs color_temperature_to_rgb
  rw [clamp_kelvin_of_le _ hfl, kelvin_of_1000, clamp_kelvin_of_le _ (by norm_num)]

/-- Witness for the amended C8: mireds 2000 (500 Kelvin, clamped to 1000)
gives the same chromaticity as mireds 1000. -/
theorem temperature_to_hs_kelvin_clamp_witness :
    (1000 : ℤ) ≤ 2000 ∧ hs_color_for_temperature 2000 = hs_color_for_temperature 1000 :=
  ⟨by norm_num, temperature_to_hs_kelvin_clamp 2000 (by norm_num)⟩

end SmartLightGroup
